import Mathlib

/-!
Shallow embedding of src/build.py, the STSFT clinical guidelines builder.

The Python program converts word-processor documents into a single web page.
Its core is a heuristic line-block segmenter (format_content), a pattern
classifier (h3/h4/bold tables), a section colorizer (get_section_colors),
and a category resolver (determine_category).  The definitions below follow
the source line by line; machine strings are modelled as Lean String values
and Python list/dict iteration is modelled with ordered association lists.

Caveats of the embedding, noted where relevant:
the Python functions str.strip, str.lower and the regex classes \s and \d
act on the full Unicode tables, while the model uses Char.isWhitespace,
Char.toLower and Char.isDigit; the two agree on all ASCII text, which is
all the fixed pattern tables and all inputs used in the theorems contain.
-/

namespace Build

set_option maxRecDepth 16384

/-- Models Python str.strip restricted to the whitespace characters
space, tab, CR and LF: drops leading and trailing whitespace. -/
def stripData (cs : List Char) : List Char :=
  ((cs.dropWhile Char.isWhitespace).reverse.dropWhile Char.isWhitespace).reverse

/-- Models line.strip() for a whole string. -/
def pstrip (s : String) : String :=
  String.mk (stripData s.data)

/-- Models Python text.split on a single newline separator: splits into
pieces, keeping empty pieces, so that n separators give n+1 pieces. -/
def splitNlData : List Char → List (List Char)
  | [] => [[]]
  | c :: cs =>
    if c = '\n' then [] :: splitNlData cs
    else
      match splitNlData cs with
      | [] => [[c]]
      | p :: ps => (c :: p) :: ps

/-- Models text.split with separator newline, as used in format_content. -/
def splitNl (s : String) : List String :=
  (splitNlData s.data).map String.mk

/-- Lower-cased character list of a string; models str.lower for ASCII,
as used by re.IGNORECASE matching and the partial lookups. -/
def charsLower (s : String) : List Char := s.data.map Char.toLower

/-- Contiguous sublist test on character lists. -/
def subListIn (a : List Char) : List Char → Bool
  | [] => a.isEmpty
  | c :: bs => a.isPrefixOf (c :: bs) || subListIn a bs

/-- Models the Python substring test a in b. -/
def strIn (a b : String) : Bool := subListIn a.data b.data

/-- Models str.lower for ASCII, as a whole-string function. -/
def strLower (s : String) : String := String.mk (charsLower s)

/-- Models line.endswith for a single character. -/
def endsChar (c : Char) (s : String) : Bool := s.data.getLast? == some c

/-- The shapes of regular expressions occurring in the h3/h4 tables of
format_content: a plain anchored literal (re.match of a literal), a
literal followed by one whitespace character (trailing backslash-s), a
fully anchored literal (trailing dollar), and a literal followed by one
character from a class (trailing bracket class). -/
inductive Pat where
  | pre (p : String)
  | preWS (p : String)
  | exact (p : String)
  | preCls (p : String) (cs : List Char)
deriving DecidableEq, Repr

/-- Matching one pattern against a line with re.IGNORECASE semantics:
both sides are lower-cased before comparison. -/
def patMatch (line : String) (p : Pat) : Bool :=
  match p with
  | .pre q => (charsLower q).isPrefixOf (charsLower line)
  | .preWS q =>
    (charsLower q).isPrefixOf (charsLower line) &&
      (match (charsLower line).drop (charsLower q).length with
       | c :: _ => c.isWhitespace
       | [] => false)
  | .exact q => charsLower q == charsLower line
  | .preCls q cs =>
    (charsLower q).isPrefixOf (charsLower line) &&
      (match (charsLower line).drop (charsLower q).length with
       | c :: _ => cs.contains c
       | [] => false)

/-- The h3_patterns table of format_content, transcribed in order. -/
def h3_patterns : List Pat :=
  [ .preWS "About",
    .pre "Take a history",
    .pre "Examine the patient",
    .preWS "Arrange",
    .pre "Immediate assessment",
    .pre "Immediate management",
    .pre "Initial Management",
    .pre "Ongoing Management",
    .pre "Secondary Assessment",
    .pre "Start Treatment",
    .pre "Classification of",
    .pre "Confirming",
    .pre "Certifying",
    .pre "Registering",
    .pre "Transferring",
    .pre "Medical Examiner",
    .pre "Hypertensive emergency",
    .pre "Hypertensive urgency",
    .pre "Malignant hypertension",
    .pre "Standard discharge",
    .pre "Isolated systolic",
    .pre "Body mass index",
    .pre "Assess fluid",
    .pre "Fluid management",
    .pre "Antibiotic",
    .pre "Sepsis Six",
    .pre "Source control",
    .pre "Pharmacological",
    .pre "Non-pharmacological",
    .pre "Pre-operative",
    .pre "Intra-operative",
    .pre "Post-operative",
    .pre "Type 1 diabetes",
    .pre "Type 2 diabetes",
    .pre "Initial treatment",
    .pre "Ongoing treatment",
    .pre "Discharge and Follow",
    .pre "Advice and Referrals" ]

/-- The h4_patterns table of format_content, transcribed in order. -/
def h4_patterns : List Pat :=
  [ .exact "Risk factors",
    .exact "Symptoms",
    .exact "Medications",
    .exact "Red flags",
    .exact "Concerning features",
    .exact "General surgery",
    .exact "Gynaecology",
    .exact "Obstetrics",
    .exact "Urology",
    .exact "Medical causes",
    .exact "Vascular",
    .pre "Ruptured abdominal",
    .exact "Ectopic pregnancy",
    .exact "Ureteric colic",
    .exact "Very ill",
    .exact "Urgent dialysis",
    .pre "Severe hyponatraemia",
    .pre "Moderate hyponatraemia",
    .pre "Mild hyponatraemia",
    .exact "Acute",
    .exact "Chronic",
    .preCls "Stage " ['1', '2', '3'],
    .preCls "Grade " ['1', '2', '3', '4'],
    .pre "First-line",
    .pre "Second-line",
    .pre "Third-line",
    .pre "For health professionals",
    .pre "For patients",
    .exact "References",
    .exact "Information",
    .pre "Emergency department",
    .exact "Investigations",
    .pre "White coat" ]

/-- Models matches_pattern_list: tries each pattern in order with
re.IGNORECASE and reports whether any matches. -/
def matches_pattern_list (line : String) (pats : List Pat) : Bool :=
  pats.any (fun p => patMatch line p)

/-- The alternatives of the bold_patterns regex of format_content.
The regex has no IGNORECASE flag, so matching is case sensitive. -/
def bold_patterns : List String :=
  [ "Exclude if:", "Ask about:", "Note:", "Consider:", "Important:",
    "If not excluded", "If suspected", "If the patient",
    "Ensure ", "Avoid ", "Check ", "Perform ", "Request ", "Advise ",
    "Document ", "Calculate ", "Aim to", "Do not ", "Seek ", "Start ",
    "Stop ", "Refer ", "Recommend " ]

/-- Models re.match(bold_patterns, line): the line starts with one of the
directive literals, compared case sensitively. -/
def isBoldDirective (line : String) : Bool :=
  bold_patterns.any (fun p => p.data.isPrefixOf line.data)

/-- Models numbered_pattern.match(line) for the regex of one or more
digits, a dot, one or more whitespace characters, then the rest.  Returns
the two capture groups (digit run, remainder).  Call sites only pass
stripped newline-free lines, where this greedy parse coincides with the
regex engine. -/
def numberedMatch (line : String) : Option (String × String) :=
  let cs := line.data
  let ds := cs.takeWhile Char.isDigit
  match cs.dropWhile Char.isDigit with
  | '.' :: rest2 =>
    if ds.isEmpty then none
    else
      let ws := rest2.takeWhile Char.isWhitespace
      let rest3 := rest2.dropWhile Char.isWhitespace
      if ws.isEmpty || rest3.isEmpty then none
      else some (String.mk ds, String.mk rest3)
  | _ => none

/-- The markup blocks produced by the segmenter loop of format_content.
A numbered block keeps the whole stripped source line; its number and
text parts are recovered by numberedMatch at render time (the loop only
creates such a block after numberedMatch succeeded on the line). -/
inductive Block where
  | heading (level : Nat) (text : String)
  | para (text : String)
  | bold (text : String)
  | bulletList (items : List String)
  | numbered (line : String) (subitems : List String)
deriving DecidableEq, Repr

/-- The stripped first non-blank line of a list, as found by the
while loop of the short-line-before-long-paragraph rule. -/
def nextNonBlank : List String → Option String
  | [] => none
  | l :: ls => if pstrip l = "" then nextNonBlank ls else some (pstrip l)

/-- The lookahead of the short-line-before-long-paragraph rule: the next
non-blank line exists and its stripped length exceeds 80. -/
def nextLongCond (rest : List String) : Bool :=
  match nextNonBlank rest with
  | some t => decide (80 < t.length)
  | none => false

/-- The sub-item collection loop after a numbered line: skips blank
lines, stops (without consuming) at a numbered line, an h3/h4 pattern
match, or a bold directive, and otherwise collects the stripped line.
Returns the collected items and the number of lines consumed. -/
def collectSubs : List String → List String × Nat
  | [] => ([], 0)
  | l :: ls =>
    if pstrip l = "" then ((collectSubs ls).1, (collectSubs ls).2 + 1)
    else if (numberedMatch (pstrip l)).isSome then ([], 0)
    else if matches_pattern_list (pstrip l) h3_patterns ||
            matches_pattern_list (pstrip l) h4_patterns then ([], 0)
    else if isBoldDirective (pstrip l) then ([], 0)
    else (pstrip l :: (collectSubs ls).1, (collectSubs ls).2 + 1)

/-- The bullet-list lookahead loop: skips blank lines, stops at a
numbered line or an h3/h4 pattern match, collects lines of stripped
length strictly between 3 and 100, and stops at any other line.
Returns the collected items and the number of lines consumed. -/
def collectBullets : List String → List String × Nat
  | [] => ([], 0)
  | l :: ls =>
    if pstrip l = "" then ((collectBullets ls).1, (collectBullets ls).2 + 1)
    else if (numberedMatch (pstrip l)).isSome then ([], 0)
    else if matches_pattern_list (pstrip l) h3_patterns ||
            matches_pattern_list (pstrip l) h4_patterns then ([], 0)
    else if 3 < (pstrip l).length ∧ (pstrip l).length < 100 then
      (pstrip l :: (collectBullets ls).1, (collectBullets ls).2 + 1)
    else ([], 0)

/-- One top-level iteration of the while loop of format_content, on the
already stripped current line s with the remaining raw lines rest.
Returns the blocks emitted by the iteration and the number of lines
consumed (current line included).  The if-chain reproduces the rule
order of the source: blank skip, h3 heading, h4 heading, short line
before long paragraph, numbered item with sub-collection, bullet list of
three or more short lines, bold directive or colon line, paragraph. -/
def segStepS (s : String) (rest : List String) : List Block × Nat :=
  if s = "" then ([], 1)
  else if s.length < 80 ∧ matches_pattern_list s h3_patterns = true then
    ([.heading 3 s], 1)
  else if s.length < 80 ∧ matches_pattern_list s h4_patterns = true then
    ([.heading 4 s], 1)
  else if s.length < 60 ∧ 3 < s.length ∧ endsChar '.' s = false ∧
          endsChar ',' s = false ∧ numberedMatch s = none ∧
          nextLongCond rest = true then
    ([.heading 3 s], 1)
  else if (numberedMatch s).isSome then
    ([.numbered s (collectSubs rest).1], 1 + (collectSubs rest).2)
  else if s.length < 100 ∧ 3 < s.length ∧ numberedMatch s = none ∧
          3 ≤ (s :: (collectBullets rest).1).length then
    ([.bulletList (s :: (collectBullets rest).1)], 1 + (collectBullets rest).2)
  else if isBoldDirective s = true ∨ endsChar ':' s = true then
    ([.bold s], 1)
  else ([.para s], 1)

/-- One top-level iteration on a raw current line: the loop strips the
line first (the source only ever uses the stripped form). -/
def segStep (l : String) (rest : List String) : List Block × Nat :=
  segStepS (pstrip l) rest

/-- The while loop of format_content, with explicit fuel; each iteration
consumes at least one line, so fuel equal to the number of lines
suffices (proved below). -/
def segFuel : Nat → List String → List Block
  | 0, _ => []
  | _ + 1, [] => []
  | fuel + 1, l :: rest =>
    (segStep l rest).1 ++ segFuel fuel (rest.drop ((segStep l rest).2 - 1))

/-- The segmenter: runs the loop with fuel equal to the line count. -/
def segment (lines : List String) : List Block :=
  segFuel lines.length lines

/-- The ul rendering shared by bullet lists and numbered sub-lists. -/
def renderSubList (items : List String) : List String :=
  "<ul>" :: (items.map (fun it => "<li>" ++ it ++ "</li>") ++ ["</ul>"])

/-- The strings appended to the result list for one block, exactly as in
the source.  For a numbered block the line is re-split by numberedMatch;
the fallback branch is unreachable because the loop only creates a
numbered block when numberedMatch succeeds. -/
def renderBlock : Block → List String
  | .heading 4 t => ["<h4>" ++ t ++ "</h4>"]
  | .heading _ t => ["<h3>" ++ t ++ "</h3>"]
  | .para t => ["<p>" ++ t ++ "</p>"]
  | .bold t => ["<strong>" ++ t ++ "</strong>"]
  | .bulletList items => renderSubList items
  | .numbered line subs =>
    (match numberedMatch line with
     | some nt => "<p><strong>" ++ nt.1 ++ ". " ++ nt.2 ++ "</strong></p>"
     | none => "<p><strong>" ++ line ++ "</strong></p>")
      :: (if subs.isEmpty then [] else renderSubList subs)

/-- The strings of a whole block list, in order. -/
def renderAll : List Block → List String
  | [] => []
  | b :: bs => renderBlock b ++ renderAll bs

/-- Models format_content: empty input short-circuits to the empty
string; otherwise the text is split on newlines, segmented, and the
emitted strings are joined with newlines. -/
def format_content (text : String) : String :=
  if text = "" then ""
  else String.intercalate "\n" (renderAll (segment (splitNl text)))

/-- The source lines covered by one block: used to state that the
segmenter consumes every non-blank line exactly once. -/
def blockLines : Block → List String
  | .heading _ t => [t]
  | .para t => [t]
  | .bold t => [t]
  | .bulletList items => items
  | .numbered line subs => line :: subs

/-- The source lines covered by a block list, in order. -/
def linesOfBlocks : List Block → List String
  | [] => []
  | b :: bs => blockLines b ++ linesOfBlocks bs

/-- The color scheme record of get_section_colors. -/
structure ColorScheme where
  emoji : String
  bg : String
  text : String
  accent : String
deriving DecidableEq, Repr

/-- The color_schemes dict of get_section_colors, as an ordered
association list (Python dicts iterate in insertion order). -/
def color_schemes : List (String × ColorScheme) :=
  [ ("Red Flags", ⟨"🚨", "#fde8e8", "#991b1b", "#dc3545"⟩),
    ("Background", ⟨"📋", "#dbeafe", "#1e3a5f", "#0066cc"⟩),
    ("Assessment", ⟨"🔍", "#d1fae5", "#065f46", "#17a2b8"⟩),
    ("Secondary Assessment", ⟨"🔍", "#d1fae5", "#065f46", "#17a2b8"⟩),
    ("Ongoing Assessment", ⟨"🔍", "#d1fae5", "#065f46", "#17a2b8"⟩),
    ("Management", ⟨"💊", "#dcfce7", "#166534", "#28a745"⟩),
    ("Ongoing Management", ⟨"💊", "#dcfce7", "#166534", "#28a745"⟩),
    ("Discharge and Follow up", ⟨"📤", "#ede9fe", "#5b21b6", "#6f42c1"⟩),
    ("Advice and Referrals", ⟨"📞", "#ffedd5", "#9a3412", "#ff8c42"⟩),
    ("Information and References", ⟨"📚", "#f3f4f6", "#374151", "#6b7280"⟩) ]

/-- The default scheme returned when no lookup succeeds. -/
def defaultScheme : ColorScheme := ⟨"📝", "#e2e8f0", "#1e293b", "#475569"⟩

/-- Models get_section_colors: exact case-sensitive dict lookup, else the
partial-match loop testing key.lower() in header.lower() in table order,
else the default scheme.  The source loop tests only whether the key
appears inside the header, not the other direction. -/
def get_section_colors (header : String) : ColorScheme :=
  match color_schemes.find? (fun kv => kv.1 == header) with
  | some kv => kv.2
  | none =>
    match color_schemes.find? (fun kv => strIn (strLower kv.1) (strLower header)) with
    | some kv => kv.2
    | none => defaultScheme

/-- The category configuration consumed by determine_category: ordered
category table (category name with its guidelines list) and ordered
directorate mapping, in dict insertion order. -/
structure CategoriesConfig where
  categories : List (String × List String)
  directorate_mapping : List (String × String)
deriving DecidableEq, Repr

/-- The exact directorate lookup of determine_category, guarded by the
truthiness test on the directorate (empty string is falsy). -/
def exactDirLookup (d : String) (m : List (String × String)) :
    Option (String × String) :=
  if d = "" then none else m.find? (fun kv => kv.1 == d)

/-- The partial directorate loop of determine_category: case-insensitive
containment in either direction, first mapping entry winning; guarded by
the truthiness test on the directorate. -/
def looseDirLookup (d : String) (m : List (String × String)) :
    Option (String × String) :=
  if d = "" then none
  else m.find? (fun kv =>
    strIn (strLower kv.1) (strLower d) || strIn (strLower d) (strLower kv.1))

/-- Models determine_category: exact directorate mapping first, then the
first category whose guidelines list contains the title, then the
partial directorate loop, else the Uncategorised default. -/
def determine_category (title d : String) (cfg : CategoriesConfig) : String :=
  match exactDirLookup d cfg.directorate_mapping with
  | some kv => kv.2
  | none =>
    match cfg.categories.find? (fun ci => ci.2.contains title) with
    | some ci => ci.1
    | none =>
      match looseDirLookup d cfg.directorate_mapping with
      | some kv => kv.2
      | none => "Uncategorised"

/-- A processed guideline record; only its presence matters to the exit
status logic, so the record is reduced to its title. -/
structure Guideline where
  title : String
deriving DecidableEq, Repr

/-- Models the decision logic of build_app with the file system
abstracted away: the argument is the per-file outcome of
process_docx_file for each discovered input document, in order (none for
a document whose processing raised and was skipped).  build_app returns
False when no documents were found, False when no document processed
successfully, and True otherwise, after writing the output. -/
def build_app (docx_results : List (Option Guideline)) : Bool :=
  if docx_results = [] then false
  else if docx_results.filterMap id = [] then false
  else true

/-- Models the main guard: exit code 0 on success, 1 on failure. -/
def main_exit_code (docx_results : List (Option Guideline)) : Nat :=
  if build_app docx_results then 0 else 1

/-! ### Helper lemmas about the segmenter loop -/

theorem linesOfBlocks_append (a b : List Block) :
    linesOfBlocks (a ++ b) = linesOfBlocks a ++ linesOfBlocks b := by
  induction a with
  | nil => rfl
  | cons x xs ih => simp [linesOfBlocks, ih]

theorem segFuel_nil (fuel : Nat) : segFuel fuel [] = [] := by
  cases fuel <;> rfl

/-- Every top-level iteration of the loop consumes at least one line. -/
theorem segStep_consumed_pos (l : String) (rest : List String) :
    1 ≤ (segStep l rest).2 := by
  unfold segStep segStepS
  split_ifs <;> simp

/-- The sub-item collection loop returns exactly the stripped non-blank
lines of the prefix it consumed. -/
theorem collectSubs_cover : ∀ ls : List String,
    (collectSubs ls).1 =
      ((ls.take (collectSubs ls).2).map pstrip).filter (fun x => !(x == ""))
  | [] => rfl
  | l :: ls => by
    unfold collectSubs
    split_ifs with h1 h2 h3 h4
    · simp [h1, collectSubs_cover ls]
    · simp
    · simp
    · simp
    · simp [h1, collectSubs_cover ls]

/-- The bullet lookahead loop returns exactly the stripped non-blank
lines of the prefix it consumed. -/
theorem collectBullets_cover : ∀ ls : List String,
    (collectBullets ls).1 =
      ((ls.take (collectBullets ls).2).map pstrip).filter (fun x => !(x == ""))
  | [] => rfl
  | l :: ls => by
    unfold collectBullets
    split_ifs with h1 h2 h3 h4
    · simp [h1, collectBullets_cover ls]
    · simp
    · simp
    · simp [h1, collectBullets_cover ls]
    · simp

/-- One iteration emits exactly the stripped non-blank lines of the
chunk of input it consumed, in order. -/
theorem segStep_cover (l : String) (rest : List String) :
    linesOfBlocks (segStep l rest).1 =
      (((l :: rest.take ((segStep l rest).2 - 1)).map pstrip).filter
        (fun x => !(x == ""))) := by
  unfold segStep segStepS
  split_ifs with h1 h2 h3 h4 h5 h6 h7
  · simp [h1, linesOfBlocks, blockLines]
  · simp [h1, linesOfBlocks, blockLines]
  · simp [h1, linesOfBlocks, blockLines]
  · simp [h1, linesOfBlocks, blockLines]
  · simp [h1, linesOfBlocks, blockLines, collectSubs_cover rest]
  · simp [h1, linesOfBlocks, blockLines, collectBullets_cover rest]
  · simp [h1, linesOfBlocks, blockLines]
  · simp [h1, linesOfBlocks, blockLines]

/-- With fuel at least the number of lines, the loop emits exactly the
stripped non-blank input lines, each once and in order. -/
theorem segFuel_cover : ∀ (fuel : Nat) (lines : List String),
    lines.length ≤ fuel →
    linesOfBlocks (segFuel fuel lines) =
      (lines.map pstrip).filter (fun x => !(x == ""))
  | 0, [], _ => rfl
  | 0, _ :: _, h => absurd h (by simp)
  | _ + 1, [], _ => rfl
  | fuel + 1, l :: rest, h => by
    have hrest : rest.length ≤ fuel := Nat.le_of_succ_le_succ h
    have hdrop : (rest.drop ((segStep l rest).2 - 1)).length ≤ fuel := by
      rw [List.length_drop]
      exact Nat.le_trans (Nat.sub_le _ _) hrest
    have hsplit :
        (l :: rest).map pstrip =
          ((l :: rest.take ((segStep l rest).2 - 1)).map pstrip) ++
            ((rest.drop ((segStep l rest).2 - 1)).map pstrip) := by
      rw [← List.map_append]
      rw [List.cons_append, List.take_append_drop]
    calc linesOfBlocks (segFuel (fuel + 1) (l :: rest))
        = linesOfBlocks ((segStep l rest).1 ++
            segFuel fuel (rest.drop ((segStep l rest).2 - 1))) := rfl
      _ = linesOfBlocks (segStep l rest).1 ++
            linesOfBlocks (segFuel fuel (rest.drop ((segStep l rest).2 - 1))) :=
          linesOfBlocks_append _ _
      _ = (((l :: rest.take ((segStep l rest).2 - 1)).map pstrip).filter
              (fun x => !(x == ""))) ++
            (((rest.drop ((segStep l rest).2 - 1)).map pstrip).filter
              (fun x => !(x == ""))) := by
          rw [segStep_cover, segFuel_cover fuel _ hdrop]
      _ = ((l :: rest).map pstrip).filter (fun x => !(x == "")) := by
          rw [hsplit, List.filter_append]

/-- The loop result does not depend on the fuel once the fuel reaches the
number of lines: the loop terminates within that many iterations. -/
theorem segFuel_congr : ∀ (fuel₁ fuel₂ : Nat) (lines : List String),
    lines.length ≤ fuel₁ → lines.length ≤ fuel₂ →
    segFuel fuel₁ lines = segFuel fuel₂ lines
  | 0, fuel₂, [], _, _ => (segFuel_nil fuel₂).symm
  | 0, _, _ :: _, h, _ => absurd h (by simp)
  | _ + 1, fuel₂, [], _, _ => (segFuel_nil fuel₂).symm
  | _ + 1, 0, _ :: _, _, h₂ => absurd h₂ (by simp)
  | fuel₁ + 1, fuel₂ + 1, l :: rest, h₁, h₂ => by
    have hdrop₁ : (rest.drop ((segStep l rest).2 - 1)).length ≤ fuel₁ := by
      rw [List.length_drop]
      exact Nat.le_trans (Nat.sub_le _ _) (Nat.le_of_succ_le_succ h₁)
    have hdrop₂ : (rest.drop ((segStep l rest).2 - 1)).length ≤ fuel₂ := by
      rw [List.length_drop]
      exact Nat.le_trans (Nat.sub_le _ _) (Nat.le_of_succ_le_succ h₂)
    show (segStep l rest).1 ++ segFuel fuel₁ (rest.drop ((segStep l rest).2 - 1)) =
      (segStep l rest).1 ++ segFuel fuel₂ (rest.drop ((segStep l rest).2 - 1))
    rw [segFuel_congr fuel₁ fuel₂ _ hdrop₁ hdrop₂]

/-- Claim C1: the segmenter loop of format_content consumes every
non-blank line exactly once and in the original order (the lines covered
by the emitted blocks are exactly the stripped non-blank input lines),
every top-level iteration advances the cursor by at least one line, and
the loop terminates within one iteration per input line (any fuel of at
least the line count gives the same result). -/
theorem format_content_segmenter_invariants :
    (∀ lines : List String,
      linesOfBlocks (segment lines) =
        (lines.map pstrip).filter (fun x => !(x == "")))
    ∧ (∀ (l : String) (rest : List String), 1 ≤ (segStep l rest).2)
    ∧ (∀ (fuel : Nat) (lines : List String), lines.length ≤ fuel →
        segFuel fuel lines = segment lines) :=
  ⟨fun lines => segFuel_cover lines.length lines (Nat.le_refl _),
   segStep_consumed_pos,
   fun fuel lines h => segFuel_congr fuel lines.length lines h (Nat.le_refl _)⟩

/-- Witness for C1 at concrete inputs. -/
theorem format_content_segmenter_invariants_witness :
    linesOfBlocks (segment ["Apple pie", " ", "1. x y"]) =
      ((["Apple pie", " ", "1. x y"].map pstrip).filter (fun x => !(x == "")))
    ∧ 1 ≤ (segStep "Apple pie" []).2
    ∧ segFuel 9 ["Apple pie", " ", "1. x y"] = segment ["Apple pie", " ", "1. x y"] :=
  ⟨format_content_segmenter_invariants.1 ["Apple pie", " ", "1. x y"],
   format_content_segmenter_invariants.2.1 "Apple pie" [],
   format_content_segmenter_invariants.2.2 9 ["Apple pie", " ", "1. x y"] (by decide)⟩

/-- No pattern of the h3 table matches the empty line. -/
theorem h3_empty_no_match : matches_pattern_list "" h3_patterns = false := by
  decide

/-- Claim C4: a line of length under 80 that matches an h3 pattern and
also ends with a colon is emitted by the loop as an h3 heading, never as
a bold line: the heading rule fires before the bold-directive rule. -/
theorem heading_priority_over_bold (l : String) (rest : List String)
    (hlen : (pstrip l).length < 80)
    (hmatch : matches_pattern_list (pstrip l) h3_patterns = true)
    (_hcolon : endsChar ':' (pstrip l) = true) :
    segment (l :: rest) = Block.heading 3 (pstrip l) :: segment rest := by
  have hne : pstrip l ≠ "" := by
    intro he
    rw [he, h3_empty_no_match] at hmatch
    exact Bool.false_ne_true hmatch
  have hstep : segStep l rest = ([Block.heading 3 (pstrip l)], 1) := by
    unfold segStep segStepS
    rw [if_neg hne, if_pos ⟨hlen, hmatch⟩]
  show segFuel (l :: rest).length (l :: rest) = _
  rw [List.length_cons]
  show (segStep l rest).1 ++
      segFuel rest.length (rest.drop ((segStep l rest).2 - 1)) = _
  rw [hstep]
  rfl

/-- Witness for C4: the line matches the Sepsis Six h3 pattern and ends
with a colon, and the loop emits a heading for it. -/
theorem heading_priority_over_bold_witness :
    segment ["Sepsis Six:"] = Block.heading 3 (pstrip "Sepsis Six:") :: segment [] :=
  heading_priority_over_bold "Sepsis Six:" [] (by decide) (by decide) (by decide)

/-- One iteration only emits a bullet list of at least three items. -/
theorem bulletList_mem_step (l : String) (rest : List String)
    (items : List String) (h : Block.bulletList items ∈ (segStep l rest).1) :
    3 ≤ items.length := by
  unfold segStep segStepS at h
  split_ifs at h with h1 h2 h3 h4 h5 h6 h7
  · simp at h
  · simp at h
  · simp at h
  · simp at h
  · simp at h
  · simp at h
    rw [h]
    exact h6.2.2.2
  · simp at h
  · simp at h

/-- Every bullet list emitted by the loop has at least three items. -/
theorem bulletList_mem_fuel : ∀ (fuel : Nat) (lines : List String)
    (items : List String), Block.bulletList items ∈ segFuel fuel lines →
    3 ≤ items.length
  | 0, _, _, h => absurd h (by simp [segFuel])
  | _ + 1, [], _, h => absurd h (by simp [segFuel])
  | fuel + 1, l :: rest, items, h => by
    rw [show segFuel (fuel + 1) (l :: rest) = (segStep l rest).1 ++
        segFuel fuel (rest.drop ((segStep l rest).2 - 1)) from rfl,
      List.mem_append] at h
    rcases h with h | h
    · exact bulletList_mem_step l rest items h
    · exact bulletList_mem_fuel fuel _ items h

/-- Claim C5: the bullet-grouping rule never fires on a run of two
qualifying short lines (they fall through, here to paragraphs), fires on
a run of three with one list of exactly those three items, and in
general every emitted list block has at least three items. -/
theorem bullet_list_threshold :
    (∀ (lines : List String) (items : List String),
        Block.bulletList items ∈ segment lines → 3 ≤ items.length)
    ∧ segment ["Apple pie", "Banana split"] =
        [Block.para "Apple pie", Block.para "Banana split"]
    ∧ segment ["Apple pie", "Banana split", "Cherry tart"] =
        [Block.bulletList ["Apple pie", "Banana split", "Cherry tart"]] :=
  ⟨fun lines items h => bulletList_mem_fuel lines.length lines items h,
   by decide, by decide⟩

/-- Witness for C5 at the three-line run. -/
theorem bullet_list_threshold_witness :
    3 ≤ (["Apple pie", "Banana split", "Cherry tart"] : List String).length :=
  bullet_list_threshold.1 ["Apple pie", "Banana split", "Cherry tart"]
    ["Apple pie", "Banana split", "Cherry tart"] (by decide)

/-- Claim C6: the numbered-item rule greedily collects following
non-blank lines as sub-items and stops at the next numbered line, so the
four-line input yields a first numbered item with two sub-items and a
second numbered item with none, and format_content renders exactly the
corresponding markup. -/
theorem numbered_subcollection_example :
    segment ["1. First step", "Detail A", "Detail B", "2. Second step"] =
      [Block.numbered "1. First step" ["Detail A", "Detail B"],
       Block.numbered "2. Second step" []]
    ∧ numberedMatch "1. First step" = some ("1", "First step")
    ∧ numberedMatch "2. Second step" = some ("2", "Second step")
    ∧ format_content "1. First step\nDetail A\nDetail B\n2. Second step" =
        "<p><strong>1. First step</strong></p>\n<ul>\n<li>Detail A</li>\n<li>Detail B</li>\n</ul>\n<p><strong>2. Second step</strong></p>" := by
  refine ⟨by decide, by decide, by decide, by decide⟩

/-- Stripping a string of whitespace characters gives the empty string. -/
theorem pstrip_of_ws (l : String) (h : ∀ c ∈ l.data, c.isWhitespace = true) :
    pstrip l = "" := by
  have h1 : l.data.dropWhile Char.isWhitespace = [] :=
    List.dropWhile_eq_nil_iff.mpr h
  unfold pstrip stripData
  rw [h1]
  rfl

/-- splitNlData never returns the empty list of pieces. -/
theorem splitNlData_ne_nil : ∀ cs : List Char, splitNlData cs ≠ []
  | [] => by simp [splitNlData]
  | c :: cs => by
    unfold splitNlData
    split_ifs
    · simp
    · cases hsp : splitNlData cs <;> simp

/-- Splitting an all-whitespace character list on newlines yields only
all-whitespace pieces. -/
theorem splitNlData_ws : ∀ cs : List Char,
    (∀ c ∈ cs, c.isWhitespace = true) →
    ∀ p ∈ splitNlData cs, ∀ c ∈ p, c.isWhitespace = true
  | [], _, p, hp => by
    simp [splitNlData] at hp
    simp [hp]
  | c :: cs, h, p, hp => by
    have hc : c.isWhitespace = true := h c (by simp)
    have hcs : ∀ x ∈ cs, x.isWhitespace = true := fun x hx => h x (by simp [hx])
    unfold splitNlData at hp
    split_ifs at hp
    · rcases List.mem_cons.mp hp with h1 | h1
      · simp [h1]
      · exact splitNlData_ws cs hcs p h1
    · rcases hsp : splitNlData cs with _ | ⟨q, qs⟩
      · rw [hsp] at hp
        simp at hp
        intro x hx
        rw [hp] at hx
        simp at hx
        rw [hx]
        exact hc
      · rw [hsp] at hp
        rcases List.mem_cons.mp hp with h1 | h1
        · intro x hx
          rw [h1] at hx
          rcases List.mem_cons.mp hx with h2 | h2
          · rw [h2]; exact hc
          · exact splitNlData_ws cs hcs q (by rw [hsp]; simp) x h2
        · exact splitNlData_ws cs hcs p (by rw [hsp]; simp [h1])

/-- On all-blank lines the loop emits nothing. -/
theorem segFuel_blank : ∀ (fuel : Nat) (lines : List String),
    (∀ l ∈ lines, pstrip l = "") → segFuel fuel lines = []
  | 0, _, _ => rfl
  | _ + 1, [], _ => rfl
  | fuel + 1, l :: rest, h => by
    have hl : pstrip l = "" := h l (by simp)
    have hstep : segStep l rest = ([], 1) := by
      unfold segStep segStepS
      rw [if_pos hl]
    show (segStep l rest).1 ++
        segFuel fuel (rest.drop ((segStep l rest).2 - 1)) = []
    rw [hstep]
    simpa using segFuel_blank fuel rest (fun x hx => h x (by simp [hx]))

/-- Claim C7: format_content returns the empty string on the empty
input, and on every whitespace-only input (blank lines are skipped
without emitting any block). -/
theorem format_content_blank_input :
    format_content "" = ""
    ∧ (∀ s : String, (∀ c ∈ s.data, c.isWhitespace = true) →
        format_content s = "") := by
  constructor
  · rfl
  · intro s h
    by_cases hs : s = ""
    · rw [hs]; rfl
    · unfold format_content
      rw [if_neg hs]
      have hseg : segment (splitNl s) = [] := by
        apply segFuel_blank
        intro l hl
        unfold splitNl at hl
        rcases List.mem_map.mp hl with ⟨p, hp, hpl⟩
        have hws : ∀ c ∈ p, c.isWhitespace = true := splitNlData_ws s.data h p hp
        rw [← hpl]
        exact pstrip_of_ws (String.mk p) hws
      rw [hseg]
      rfl

/-- Witness for C7 at a concrete whitespace-only string. -/
theorem format_content_blank_input_witness :
    format_content " \n \t\n  " = "" :=
  format_content_blank_input.2 " \n \t\n  " (by decide)

/-- Modelled from the wording of the spec for the colorizer, for
refinement comparison only: a variant whose partial tier also accepts a
header that appears within a table key.  The source function tests only
whether the key appears within the header. -/
def get_section_colors_bidir (header : String) : ColorScheme :=
  match color_schemes.find? (fun kv => kv.1 == header) with
  | some kv => kv.2
  | none =>
    match color_schemes.find? (fun kv =>
        strIn (strLower kv.1) (strLower header) ||
          strIn (strLower header) (strLower kv.1)) with
    | some kv => kv.2
    | none => defaultScheme

/-- Counterexample to C2 as stated: the header Ongoing appears within
the key Ongoing Assessment, so the claimed bidirectional partial tier
would return that scheme, but the source returns the default scheme. -/
theorem get_section_colors_bidir_counterexample :
    get_section_colors "Ongoing" = defaultScheme
    ∧ strIn (strLower "Ongoing") (strLower "Ongoing Assessment") = true
    ∧ get_section_colors_bidir "Ongoing" =
        ⟨"🔍", "#d1fae5", "#065f46", "#17a2b8"⟩
    ∧ get_section_colors "Ongoing" ≠ get_section_colors_bidir "Ongoing" := by
  refine ⟨by decide, by decide, by decide, by decide⟩

/-- Claim C2 as amended: the scheme is found by exact case-sensitive
match, else by the first table key that appears case-insensitively
within the header, else the default; in particular Red Flags for Sepsis
resolves to the Red Flags scheme via the partial tier. -/
theorem get_section_colors_amended :
    (∀ (header : String) (kv : String × ColorScheme),
        color_schemes.find? (fun p => p.1 == header) = some kv →
        get_section_colors header = kv.2)
    ∧ (∀ (header : String) (kv : String × ColorScheme),
        color_schemes.find? (fun p => p.1 == header) = none →
        color_schemes.find?
            (fun p => strIn (strLower p.1) (strLower header)) = some kv →
        get_section_colors header = kv.2)
    ∧ (∀ header : String,
        color_schemes.find? (fun p => p.1 == header) = none →
        color_schemes.find?
            (fun p => strIn (strLower p.1) (strLower header)) = none →
        get_section_colors header = defaultScheme)
    ∧ get_section_colors "Red Flags for Sepsis" =
        ⟨"🚨", "#fde8e8", "#991b1b", "#dc3545"⟩
    ∧ get_section_colors "Red Flags" =
        ⟨"🚨", "#fde8e8", "#991b1b", "#dc3545"⟩ := by
  refine ⟨?_, ?_, ?_, by decide, by decide⟩
  · intro header kv h1
    unfold get_section_colors
    rw [h1]
  · intro header kv h1 h2
    unfold get_section_colors
    rw [h1, h2]
  · intro header h1 h2
    unfold get_section_colors
    rw [h1, h2]

/-- Witness for C2 amended: a header matching no key at all falls to the
default scheme. -/
theorem get_section_colors_amended_witness :
    get_section_colors "Paediatric dosing" = defaultScheme :=
  get_section_colors_amended.2.2.1 "Paediatric dosing" (by decide) (by decide)

/-- The concrete configuration used to separate the resolution orders of
determine_category: the directorate Emergency Medicine only partially
matches the mapping key Medicine, while the title Appendicitis is listed
under the Surgical category. -/
def cfgC3 : CategoriesConfig :=
  ⟨[("Surgical", ["Appendicitis"])], [("Medicine", "Medical")]⟩

/-- Counterexample to C3 as stated: the partial directorate match is
available, but the source consults title membership first and returns
Surgical rather than the partially matched Medical. -/
theorem determine_category_order_counterexample :
    determine_category "Appendicitis" "Emergency Medicine" cfgC3 = "Surgical"
    ∧ exactDirLookup "Emergency Medicine" cfgC3.directorate_mapping = none
    ∧ looseDirLookup "Emergency Medicine" cfgC3.directorate_mapping =
        some ("Medicine", "Medical")
    ∧ ("Surgical" : String) ≠ "Medical" := by
  refine ⟨by decide, by decide, by decide, by decide⟩

/-- Claim C3 as amended: determine_category resolves in the order exact
directorate match, then title membership in a category guidelines list,
then partial directorate match, else the uncategorised default; in
particular an exact directorate match wins with no condition on title
membership. -/
theorem determine_category_amended :
    (∀ (t d : String) (cfg : CategoriesConfig) (kv : String × String),
        exactDirLookup d cfg.directorate_mapping = some kv →
        determine_category t d cfg = kv.2)
    ∧ (∀ (t d : String) (cfg : CategoriesConfig) (ci : String × List String),
        exactDirLookup d cfg.directorate_mapping = none →
        cfg.categories.find? (fun p => p.2.contains t) = some ci →
        determine_category t d cfg = ci.1)
    ∧ (∀ (t d : String) (cfg : CategoriesConfig) (kv : String × String),
        exactDirLookup d cfg.directorate_mapping = none →
        cfg.categories.find? (fun p => p.2.contains t) = none →
        looseDirLookup d cfg.directorate_mapping = some kv →
        determine_category t d cfg = kv.2)
    ∧ (∀ (t d : String) (cfg : CategoriesConfig),
        exactDirLookup d cfg.directorate_mapping = none →
        cfg.categories.find? (fun p => p.2.contains t) = none →
        looseDirLookup d cfg.directorate_mapping = none →
        determine_category t d cfg = "Uncategorised") := by
  refine ⟨?_, ?_, ?_, ?_⟩
  · intro t d cfg kv h1
    unfold determine_category
    rw [h1]
  · intro t d cfg ci h1 h2
    unfold determine_category
    rw [h1, h2]
  · intro t d cfg kv h1 h2 h3
    unfold determine_category
    rw [h1, h2, h3]
  · intro t d cfg h1 h2 h3
    unfold determine_category
    rw [h1, h2, h3]

/-- Witness for C3 amended: with an exact directorate match the mapped
category is returned even though the title sits in the Surgical
guidelines list of the configuration. -/
theorem determine_category_amended_witness :
    determine_category "Appendicitis" "Medicine" cfgC3 = "Medical" :=
  determine_category_amended.1 "Appendicitis" "Medicine" cfgC3
    ("Medicine", "Medical") (by decide)

/-- A filterMap along the identity is empty exactly when the list holds
no some element. -/
theorem filterMap_id_nil (rs : List (Option Guideline)) :
    rs.filterMap id = [] ↔ ∀ g : Guideline, some g ∉ rs := by
  rw [List.filterMap_eq_nil_iff]
  constructor
  · intro h g hg
    have := h (some g) hg
    simp at this
  · intro h a ha
    cases a with
    | none => rfl
    | some g => exact absurd ha (h g)

/-- Claim C8: the build exits with status 0 exactly when at least one
input document was found and at least one processed successfully (the
output is then written), and with status 1 exactly when no document was
found or none processed successfully. -/
theorem build_exit_status (rs : List (Option Guideline)) :
    (main_exit_code rs = 0 ↔ rs ≠ [] ∧ ∃ g : Guideline, some g ∈ rs)
    ∧ (main_exit_code rs = 1 ↔ rs = [] ∨ ∀ g : Guideline, some g ∉ rs) := by
  by_cases hnil : rs = []
  · subst hnil
    simp [main_exit_code, build_app]
  · by_cases hf : rs.filterMap id = []
    · have hno : ∀ g : Guideline, some g ∉ rs := (filterMap_id_nil rs).mp hf
      have hexit : main_exit_code rs = 1 := by
        unfold main_exit_code build_app
        rw [if_neg hnil, if_pos hf]
        rfl
      rw [hexit]
      constructor
      · constructor
        · intro h10
          exact absurd h10 (by decide)
        · intro h
          exact absurd h.2.choose_spec (hno h.2.choose)
      · constructor
        · intro _
          exact Or.inr hno
        · intro _
          rfl
    · have hex : ∃ g : Guideline, some g ∈ rs := by
        by_contra hc
        push_neg at hc
        exact hf ((filterMap_id_nil rs).mpr hc)
      have hexit : main_exit_code rs = 0 := by
        unfold main_exit_code build_app
        rw [if_neg hnil, if_neg hf]
        rfl
      rw [hexit]
      obtain ⟨g, hg⟩ := hex
      constructor
      · constructor
        · intro _
          exact ⟨hnil, g, hg⟩
        · intro _
          rfl
      · constructor
        · intro h01
          exact absurd h01 (by decide)
        · intro h
          rcases h with h | h
          · exact absurd h hnil
          · exact absurd hg (h g)

/-- Witness for C8 at concrete outcome lists. -/
theorem build_exit_status_witness :
    main_exit_code [some ⟨"A"⟩] = 0 ∧ main_exit_code [] = 1 :=
  ⟨(build_exit_status [some ⟨"A"⟩]).1.mpr
      ⟨by simp, ⟨"A"⟩, by simp⟩,
   (build_exit_status []).2.mpr (Or.inl rfl)⟩

/-- Claim C9: the bold-directive check of the loop is case sensitive
(the regex carries no IGNORECASE flag), so a line whose directive verb
differs in case and which does not end in a colon never yields a bold
block from its iteration; the heading tables by contrast match
case-insensitively.  The concrete conjuncts contrast NOTE: x (paragraph)
with Note: x (bold line) and show an upper-cased h3 line still heads. -/
theorem bold_directive_case_sensitivity :
    (∀ (l : String) (rest : List String),
        isBoldDirective (pstrip l) = false →
        endsChar ':' (pstrip l) = false →
        ∀ t : String, Block.bold t ∉ (segStep l rest).1)
    ∧ segment ["NOTE: x"] = [Block.para "NOTE: x"]
    ∧ segment ["Note: x"] = [Block.bold "Note: x"]
    ∧ matches_pattern_list "ABOUT sepsis" h3_patterns = true
    ∧ segment ["ABOUT sepsis"] = [Block.heading 3 "ABOUT sepsis"] := by
  refine ⟨?_, by decide, by decide, by decide, by decide⟩
  intro l rest hb hc t hmem
  unfold segStep segStepS at hmem
  split_ifs at hmem with h1 h2 h3 h4 h5 h6 h7
  · simp at hmem
  · simp at hmem
  · simp at hmem
  · simp at hmem
  · simp at hmem
  · simp at hmem
  · rcases h7 with h7 | h7
    · rw [hb] at h7
      exact Bool.false_ne_true h7
    · rw [hc] at h7
      exact Bool.false_ne_true h7
  · simp at hmem

/-- Witness for C9: the upper-cased directive line produces no bold
block from its iteration. -/
theorem bold_directive_case_sensitivity_witness :
    Block.bold "NOTE: x" ∉ (segStep "NOTE: x" []).1 :=
  bold_directive_case_sensitivity.1 "NOTE: x" [] (by decide) (by decide)
    "NOTE: x"

/-- A long line matching an h3 pattern, used to separate the
length-capped main-loop heading rule from the uncapped collection-loop
stop checks: its length is at least 100 characters. -/
def longAboutLine : String :=
  "About the assessment and management of the acutely unwell adult patient presenting to the emergency department with suspected sepsis."

/-- Claim C10: inside the numbered-item sub-collection loop and the
bullet lookahead loop, a line matching any h3/h4 pattern stops the
collection regardless of its length, while the main loop renders such a
line of length 100 or more as a paragraph, not a heading. -/
theorem collection_stops_at_heading_any_length :
    (∀ (l : String) (rest : List String),
        pstrip l ≠ "" →
        (matches_pattern_list (pstrip l) h3_patterns ||
          matches_pattern_list (pstrip l) h4_patterns) = true →
        collectSubs (l :: rest) = ([], 0))
    ∧ (∀ (l : String) (rest : List String),
        pstrip l ≠ "" →
        (matches_pattern_list (pstrip l) h3_patterns ||
          matches_pattern_list (pstrip l) h4_patterns) = true →
        collectBullets (l :: rest) = ([], 0))
    ∧ 100 ≤ longAboutLine.length
    ∧ matches_pattern_list longAboutLine h3_patterns = true
    ∧ segment ["1. Step one", longAboutLine] =
        [Block.numbered "1. Step one" [], Block.para longAboutLine] := by
  refine ⟨?_, ?_, by decide, by decide, by decide⟩
  · intro l rest h1 h2
    unfold collectSubs
    rw [if_neg h1]
    by_cases hn : (numberedMatch (pstrip l)).isSome = true
    · rw [if_pos hn]
    · rw [if_neg hn, if_pos h2]
  · intro l rest h1 h2
    unfold collectBullets
    rw [if_neg h1]
    by_cases hn : (numberedMatch (pstrip l)).isSome = true
    · rw [if_pos hn]
    · rw [if_neg hn, if_pos h2]

/-- Witness for C10: a heading-matching line stops the sub-collection
and the bullet lookahead immediately. -/
theorem collection_stops_at_heading_any_length_witness :
    collectSubs ["Sepsis Six", "x"] = ([], 0)
    ∧ collectBullets ["Sepsis Six", "x"] = ([], 0) :=
  ⟨collection_stops_at_heading_any_length.1 "Sepsis Six" ["x"]
      (by decide) (by decide),
   collection_stops_at_heading_any_length.2.1 "Sepsis Six" ["x"]
      (by decide) (by decide)⟩

end Build
